import Mathlib

/-!
Shallow embedding of the task-scheduling, rate-limiting and worker-eligibility
core of the Twitter-bot repository (src/scheduler.py, src/worker_manager.py,
src/config.py).  Timestamps are rationals measured in minutes, mirroring the
Python code's `(now - then).total_seconds() / 60` arithmetic; configuration
intervals are the integer minute values of `Config.get_rate_limits()`.
-/

namespace TwitterBot

/-- The dictionary returned by `Config.get_rate_limits` (config.py):
like_interval, like_break, comment_min, comment_max, quote_min, quote_max,
rate_limit_pause, all in minutes. -/
structure RateLimits where
  like_interval : ℚ
  like_break : ℚ
  comment_min : ℚ
  comment_max : ℚ
  quote_min : ℚ
  quote_max : ℚ
  rate_limit_pause : ℚ
deriving DecidableEq, Repr

/-- The default configuration values from config.py
(LIKE_INTERVAL_MINUTES=2, LIKE_BREAK_MINUTES=10, COMMENT_MIN_INTERVAL=10,
COMMENT_MAX_INTERVAL=30, QUOTE_CYCLE_MIN=10, QUOTE_CYCLE_MAX=20,
RATE_LIMIT_PAUSE_MINUTES=20). -/
def default_rate_limits : RateLimits :=
  { like_interval := 2, like_break := 10, comment_min := 10, comment_max := 30,
    quote_min := 10, quote_max := 20, rate_limit_pause := 20 }

/-- State of `RateLimiter` (scheduler.py).  Each `*_last_action` /
`*_cycle_start` field is a nullable timestamp, `None` initially. -/
structure RateLimiter where
  like_last_action : Option ℚ := none
  comment_last_action : Option ℚ := none
  retweet_last_action : Option ℚ := none
  quote_last_action : Option ℚ := none
  like_cycle_start : Option ℚ := none
  retweet_cycle_start : Option ℚ := none
  quote_cycle_start : Option ℚ := none
  rate_limits : RateLimits := default_rate_limits
deriving DecidableEq, Repr

/-- The trailing minimum-interval check of `RateLimiter.can_perform_like`
(scheduler.py lines 94-99): if a last like action exists and fewer than
`like_interval` minutes have passed, the like is refused. -/
def like_gate_min (rl : RateLimiter) (now : ℚ) : Bool :=
  match rl.like_last_action with
  | some last => if now - last < rl.rate_limits.like_interval then false else true
  | none => true

/-- `RateLimiter.can_perform_like` (scheduler.py lines 75-99).  Returns the
boolean decision together with the possibly-mutated limiter state:
the cycle-reset branch assigns `self.like_cycle_start = None` as a side
effect of the check.  Note the burst test compares the cycle age against
`like_break` and the break wait also against `like_break`. -/
def can_perform_like (rl : RateLimiter) (now : ℚ) : Bool × RateLimiter :=
  match rl.like_cycle_start with
  | some cyc =>
    if now - cyc > rl.rate_limits.like_break then
      match rl.like_last_action with
      | some last =>
        if now - last < rl.rate_limits.like_break then (false, rl)
        else
          let rl2 := { rl with like_cycle_start := none }
          (like_gate_min rl2 now, rl2)
      | none => (like_gate_min rl now, rl)
    else (like_gate_min rl now, rl)
  | none => (like_gate_min rl now, rl)

/-- `RateLimiter.can_perform_comment` (scheduler.py lines 101-112): flat
minimum-interval check against `comment_min`, no cycle, no mutation. -/
def can_perform_comment (rl : RateLimiter) (now : ℚ) : Bool :=
  match rl.comment_last_action with
  | some last => if now - last < rl.rate_limits.comment_min then false else true
  | none => true

/-- `RateLimiter.can_perform_retweet` (scheduler.py lines 114-116): literally
`return self.can_perform_like()` — it reads (and may mutate) only the
like-side state, never the retweet fields. -/
def can_perform_retweet (rl : RateLimiter) (now : ℚ) : Bool × RateLimiter :=
  can_perform_like rl now

/-- The trailing minimum-interval check of `RateLimiter.can_perform_quote`
(scheduler.py lines 138-144). -/
def quote_gate_min (rl : RateLimiter) (now : ℚ) : Bool :=
  match rl.quote_last_action with
  | some last => if now - last < rl.rate_limits.quote_min then false else true
  | none => true

/-- `RateLimiter.can_perform_quote` (scheduler.py lines 118-144): burst test
against `quote_max`, break wait against `quote_min`, then the minimum
interval against `quote_min`; the reset branch clears `quote_cycle_start`. -/
def can_perform_quote (rl : RateLimiter) (now : ℚ) : Bool × RateLimiter :=
  match rl.quote_cycle_start with
  | some cyc =>
    if now - cyc > rl.rate_limits.quote_max then
      match rl.quote_last_action with
      | some last =>
        if now - last < rl.rate_limits.quote_min then (false, rl)
        else
          let rl2 := { rl with quote_cycle_start := none }
          (quote_gate_min rl2 now, rl2)
      | none => (quote_gate_min rl now, rl)
    else (quote_gate_min rl now, rl)
  | none => (quote_gate_min rl now, rl)

/-- `RateLimiter.record_like_action` (scheduler.py lines 146-153): stamps
`like_last_action := now` and starts the like cycle if none is active. -/
def record_like_action (rl : RateLimiter) (now : ℚ) : RateLimiter :=
  { rl with
    like_last_action := some now
    like_cycle_start :=
      match rl.like_cycle_start with
      | none => some now
      | some c => some c }

/-- `RateLimiter.record_comment_action` (scheduler.py lines 155-157). -/
def record_comment_action (rl : RateLimiter) (now : ℚ) : RateLimiter :=
  { rl with comment_last_action := some now }

/-- `RateLimiter.record_retweet_action` (scheduler.py lines 159-166): stamps
`retweet_last_action := now` and starts the *retweet* cycle if none is
active.  It does not touch the like-side fields that
`can_perform_retweet` reads. -/
def record_retweet_action (rl : RateLimiter) (now : ℚ) : RateLimiter :=
  { rl with
    retweet_last_action := some now
    retweet_cycle_start :=
      match rl.retweet_cycle_start with
      | none => some now
      | some c => some c }

/-- `RateLimiter.record_quote_action` (scheduler.py lines 168-175). -/
def record_quote_action (rl : RateLimiter) (now : ℚ) : RateLimiter :=
  { rl with
    quote_last_action := some now
    quote_cycle_start :=
      match rl.quote_cycle_start with
      | none => some now
      | some c => some c }

/-- `TaskType` (scheduler.py lines 17-26). -/
inductive TaskType
  | like
  | comment
  | retweet
  | quote
  | follow
  | unfollow
  | sync_follows
deriving DecidableEq, Repr

/-- `TaskStatus` (scheduler.py lines 29-36). -/
inductive TaskStatus
  | pending
  | in_progress
  | completed
  | failed
  | cancelled
deriving DecidableEq, Repr

/-- The payload keys that the task handlers read
(`task.payload.get("tweet_url")`, `task.payload.get("new_bot_id")`, ...). -/
structure Payload where
  tweet_url : Option String := none
  new_bot_id : Option String := none
deriving DecidableEq, Repr

/-- The `Task` dataclass (scheduler.py lines 39-58). -/
structure Task where
  id : String
  task_type : TaskType
  payload : Payload := {}
  status : TaskStatus := .pending
  created_at : ℚ := 0
  scheduled_for : ℚ := 0
  completed_at : Option ℚ := none
  retry_count : ℕ := 0
  max_retries : ℕ := 3
  priority : ℤ := 1
deriving DecidableEq, Repr

/-- The retry/terminal bookkeeping of `TaskScheduler._execute_task`
(scheduler.py lines 296, 308-329) after the handler returned `success`:
on success the task becomes Completed with `completed_at := now`; on
failure `retry_count` is incremented and the task is re-queued as Pending
with `scheduled_for := now + 5` minutes when the incremented count is
still strictly below `max_retries`, otherwise it stays Failed. -/
def execute_result (t : Task) (success : Bool) (now : ℚ) : Task :=
  let t0 := { t with status := TaskStatus.in_progress }
  if success then
    { t0 with status := TaskStatus.completed, completed_at := some now }
  else
    let t1 :=
      { t0 with
        status := TaskStatus.failed
        retry_count := t0.retry_count + 1 }
    if t1.retry_count < t1.max_retries then
      { t1 with status := TaskStatus.pending, scheduled_for := now + 5 }
    else t1

/-- Whether `_execute_task` puts the failed task back on the queue
(`await self.task_queue.put(task)` inside the retry branch,
scheduler.py line 322): only on failure with `retry_count` (after the
increment) still below `max_retries`. -/
def execute_requeues (t : Task) (success : Bool) : Bool :=
  !success && decide (t.retry_count + 1 < t.max_retries)

/-- State of one `TwitterWorker` as far as eligibility is concerned
(worker_manager.py): `is_logged_in`, `captcha_required` and the nullable
`rate_limited_until` timestamp. -/
structure TwitterWorker where
  bot_id : String
  is_logged_in : Bool := false
  captcha_required : Bool := false
  rate_limited_until : Option ℚ := none
deriving DecidableEq, Repr

/-- `TwitterWorker._can_perform_action` (worker_manager.py lines 974-985):
false when not logged in, when a captcha is pending, or when
`rate_limited_until` is set and `now` is still before it (a `None`
value is falsy in the Python `if self.rate_limited_until and ...`). -/
def can_perform_action (w : TwitterWorker) (now : ℚ) : Bool :=
  if !w.is_logged_in then false
  else if w.captcha_required then false
  else
    match w.rate_limited_until with
    | some u => if now < u then false else true
    | none => true

/-- `WorkerManager.get_active_workers` (worker_manager.py lines 1216-1222):
the workers, in pool order, whose `_can_perform_action()` holds. -/
def get_active_workers (ws : List TwitterWorker) (now : ℚ) : List TwitterWorker :=
  ws.filter (fun w => can_perform_action w now)

/-- Follow-graph view of the worker pool used by
`WorkerManager._sync_mutual_following`: the pool's bot ids and the
(follower, followee) pairs for which a `follow_user` call was issued. -/
structure WorkerPoolState where
  bots : List String
  follows : List (String × String) := []
deriving DecidableEq, Repr

/-- The follow calls issued by `TwitterWorker.mutual_follow(other_bot_ids)`
(worker_manager.py lines 950-968): the worker follows each listed bot id
other than itself. -/
def mutual_follow_calls (me : String) (other_bot_ids : List String) :
    List (String × String) :=
  (other_bot_ids.filter (fun b => b ≠ me)).map (fun b => (me, b))

/-- `WorkerManager._sync_mutual_following` (worker_manager.py lines
1349-1382): when `new_bot_id` is given and present in the pool, the new
bot mutual-follows every other bot and every other bot follows the new
bot; otherwise every worker mutual-follows all the others. -/
def sync_mutual_following (p : WorkerPoolState) (new_bot_id : Option String) :
    WorkerPoolState :=
  match new_bot_id with
  | some b =>
    if p.bots.contains b then
      { p with
        follows := p.follows
          ++ mutual_follow_calls b (p.bots.filter (fun o => o ≠ b))
          ++ (p.bots.filter (fun o => o ≠ b)).map (fun o => (o, b)) }
    else
      { p with
        follows := p.follows
          ++ (p.bots.map (fun w =>
                mutual_follow_calls w (p.bots.filter (fun o => o ≠ w)))).flatten }
  | none =>
    { p with
      follows := p.follows
        ++ (p.bots.map (fun w =>
              mutual_follow_calls w (p.bots.filter (fun o => o ≠ w)))).flatten }

/-- The scheduler-owned mutable state that the task handlers touch:
the shared `RateLimiter` and the worker pool. -/
structure SchedulerState where
  rate_limiter : RateLimiter
  pool : WorkerPoolState
deriving DecidableEq, Repr

/-- `TaskScheduler._handle_like_task` (scheduler.py lines 343-360).
`results` is the per-bot success map returned by the external
`worker_manager.like_tweet_all` fan-out.  The gate is consulted first
(its cycle-reset side effect persists either way); a denial returns
`False`.  Otherwise, with a `tweet_url` present, the fan-out runs, the
like action is recorded, and success is `success_count > 0`. -/
def handle_like_task (s : SchedulerState) (t : Task) (now : ℚ)
    (results : List Bool) : Bool × SchedulerState :=
  let c := can_perform_like s.rate_limiter now
  let s1 := { s with rate_limiter := c.2 }
  if !c.1 then (false, s1)
  else
    match t.payload.tweet_url with
    | none => (false, s1)
    | some _ =>
      let s2 := { s1 with rate_limiter := record_like_action c.2 now }
      (0 < (results.filter (fun b => b)).length, s2)

/-- `TaskScheduler._handle_retweet_task` (scheduler.py lines 383-400):
same shape as the like handler, but consulting `can_perform_retweet`
and recording through `record_retweet_action`. -/
def handle_retweet_task (s : SchedulerState) (t : Task) (now : ℚ)
    (results : List Bool) : Bool × SchedulerState :=
  let c := can_perform_retweet s.rate_limiter now
  let s1 := { s with rate_limiter := c.2 }
  if !c.1 then (false, s1)
  else
    match t.payload.tweet_url with
    | none => (false, s1)
    | some _ =>
      let s2 := { s1 with rate_limiter := record_retweet_action c.2 now }
      (0 < (results.filter (fun b => b)).length, s2)

/-- `TaskScheduler._handle_sync_follows_task` (scheduler.py lines 444-448):
reads `new_bot_id` from the payload, delegates to
`worker_manager._sync_mutual_following`, and returns `True`
unconditionally.  No rate-limit check and no record call appear. -/
def handle_sync_follows_task (s : SchedulerState) (t : Task) :
    Bool × SchedulerState :=
  (true, { s with pool := sync_mutual_following s.pool t.payload.new_bot_id })

/-- One full `_execute_task` pass for a like task: run the handler, then
apply the success/failure bookkeeping.  Returns the finished task, the
re-queue flag, and the new scheduler state. -/
def dispatch_like (s : SchedulerState) (t : Task) (now : ℚ)
    (results : List Bool) : Task × Bool × SchedulerState :=
  let h := handle_like_task s t now results
  (execute_result t h.1 now, execute_requeues t h.1, h.2)

/-- One full `_execute_task` pass for a retweet task. -/
def dispatch_retweet (s : SchedulerState) (t : Task) (now : ℚ)
    (results : List Bool) : Task × Bool × SchedulerState :=
  let h := handle_retweet_task s t now results
  (execute_result t h.1 now, execute_requeues t h.1, h.2)

/-- One full `_execute_task` pass for a sync-follows task. -/
def dispatch_sync_follows (s : SchedulerState) (t : Task) (now : ℚ) :
    Task × Bool × SchedulerState :=
  let h := handle_sync_follows_task s t
  (execute_result t h.1 now, execute_requeues t h.1, h.2)

/-- One iteration of the `TaskScheduler._process_tasks` loop over the FIFO
`asyncio.Queue` (scheduler.py lines 262-291), with the queue as a list,
head = front: the head task is taken with `get()`; if `now` is before its
`scheduled_for` it is put back at the tail and nothing is dispatched;
otherwise it is the task handed to `_execute_task`. -/
def process_step (q : List Task) (now : ℚ) : Option Task × List Task :=
  match q with
  | [] => (none, [])
  | t :: rest =>
    if now < t.scheduled_for then (none, rest ++ [t]) else (some t, rest)

/-- Outcome of `TaskScheduler.add_task` (scheduler.py lines 216-260) as seen
through the bounded `asyncio.Queue(maxsize=Config.TASK_QUEUE_SIZE)`
created at line 187: `await self.task_queue.put(task)` appends the task
when the queue is below capacity, and otherwise *suspends the caller*
until a slot frees — `asyncio.Queue.put` never raises on a full queue,
so no error value is produced and no task becomes visible. -/
inductive AddTaskOutcome
  | added (q : List Task) (task_id : String)
  | suspended
deriving DecidableEq, Repr

/-- `TaskScheduler.add_task` against a queue holding `q` with capacity
`cap`: below capacity the task is enqueued and its id returned;
at capacity the `await put` suspends. -/
def add_task_outcome (cap : ℕ) (q : List Task) (t : Task) : AddTaskOutcome :=
  if q.length < cap then .added (q ++ [t]) t.id else .suspended

/-- Dispatch history of a single task: `Reaches t v` holds when `v` arises
from `t` by zero or more `_execute_task` passes, each performed at a time
`now` at which the dispatch-loop guard `datetime.now() >= scheduled_for`
(scheduler.py line 270) let the task through, with handler outcome `b`. -/
inductive Reaches : Task → Task → Prop
  | refl (t : Task) : Reaches t t
  | step (t v : Task) (now : ℚ) (b : Bool) (hdue : t.scheduled_for ≤ now)
      (h : Reaches (execute_result t b now) v) : Reaches t v

/-- Claim C8: for every worker state and time, `_can_perform_action`
returns true if and only if the worker is logged in, no captcha is
pending, and `rate_limited_until` is unset or not in the future
(the code's `datetime.now() < self.rate_limited_until` test permits the
action again from the very instant the window expires). -/
theorem can_perform_action_iff (w : TwitterWorker) (now : ℚ) :
    can_perform_action w now = true ↔
      (w.is_logged_in = true ∧ w.captcha_required = false ∧
        (w.rate_limited_until = none ∨
          ∃ u, w.rate_limited_until = some u ∧ u ≤ now)) := by
  unfold can_perform_action
  cases hl : w.is_logged_in <;> cases hc : w.captcha_required <;>
    cases hr : w.rate_limited_until <;> simp [hl, hc, hr]

/-- Claim C9: the SyncFollows handler bypasses the RateLimiter entirely —
it returns the rate-limiter state untouched, its boolean result and its
pool effect do not depend on the rate-limiter state at all, and its
whole effect is the delegation to `_sync_mutual_following`. -/
theorem sync_follows_bypasses_rate_limiter (s : SchedulerState) (t : Task) :
    (handle_sync_follows_task s t).2.rate_limiter = s.rate_limiter ∧
    (handle_sync_follows_task s t).2.pool
      = sync_mutual_following s.pool t.payload.new_bot_id ∧
    ∀ rl : RateLimiter,
      (handle_sync_follows_task { s with rate_limiter := rl } t).1
          = (handle_sync_follows_task s t).1 ∧
      (handle_sync_follows_task { s with rate_limiter := rl } t).2.pool
          = (handle_sync_follows_task s t).2.pool :=
  ⟨rfl, rfl, fun _ => ⟨rfl, rfl⟩⟩

/-- Claim C10: a dispatched SyncFollows task always ends Completed: the
handler returns `True` unconditionally, so `_execute_task` marks the
task Completed with `completed_at := now`, leaves `retry_count`
untouched, and never re-queues it. -/
theorem sync_follows_always_completes (s : SchedulerState) (t : Task) (now : ℚ) :
    (handle_sync_follows_task s t).1 = true ∧
    (dispatch_sync_follows s t now).1.status = TaskStatus.completed ∧
    (dispatch_sync_follows s t now).1.retry_count = t.retry_count ∧
    (dispatch_sync_follows s t now).1.completed_at = some now ∧
    (dispatch_sync_follows s t now).2.1 = false :=
  ⟨rfl, rfl, rfl, rfl, rfl⟩

/-- One `_execute_task` pass can only keep or raise `retry_count` and
`scheduled_for`, provided the dispatch-loop guard let the task through
(`scheduled_for <= now`). -/
theorem execute_result_mono (t : Task) (b : Bool) (now : ℚ)
    (hdue : t.scheduled_for ≤ now) :
    t.retry_count ≤ (execute_result t b now).retry_count ∧
    t.scheduled_for ≤ (execute_result t b now).scheduled_for := by
  unfold execute_result
  cases b with
  | true => simp
  | false =>
    simp only [Bool.false_eq_true, if_false]
    split
    · refine ⟨by simp, ?_⟩
      simp only
      linarith
    · simp

/-- Claim C7: along any dispatch history of a task (`Reaches`),
`retry_count` never decreases and `scheduled_for` never moves earlier:
each retry re-queue schedules at `now + 5` with `now` at or after the
previous `scheduled_for`. -/
theorem task_monotonic (t v : Task) (h : Reaches t v) :
    t.retry_count ≤ v.retry_count ∧ t.scheduled_for ≤ v.scheduled_for := by
  induction h with
  | refl t => exact ⟨le_refl _, le_refl _⟩
  | step t v now b hdue _ ih =>
    have hs := execute_result_mono t b now hdue
    exact ⟨le_trans hs.1 ih.1, le_trans hs.2 ih.2⟩

/-- A concrete pending like task used to exercise the retry bookkeeping. -/
def c7_task : Task :=
  { id := "like_20260101_000000_1111", task_type := TaskType.like,
    payload := { tweet_url := some "https://x.com/a/status/1" } }

/-- Witness for claim C7: one failing dispatch of `c7_task` at time 0. -/
theorem task_monotonic_witness :
    c7_task.retry_count ≤ (execute_result c7_task false 0).retry_count ∧
    c7_task.scheduled_for ≤ (execute_result c7_task false 0).scheduled_for :=
  task_monotonic c7_task (execute_result c7_task false 0)
    (Reaches.step c7_task (execute_result c7_task false 0) 0 false (le_refl 0)
      (Reaches.refl (execute_result c7_task false 0)))

/-- Two due tasks: the first submitted earlier with low priority, the
second later with high priority. -/
def c2_low : Task :=
  { id := "like_20260101_000000_1000", task_type := TaskType.like,
    priority := 1, created_at := 0, scheduled_for := 0 }

/-- The higher-priority of the two C2 tasks. -/
def c2_high : Task :=
  { id := "like_20260101_000100_2000", task_type := TaskType.like,
    priority := 5, created_at := 1, scheduled_for := 0 }

/-- Counterexample to claim C2: with both tasks due at time 10, the loop
dispatches the head of the FIFO queue — the *lower*-priority task —
while the higher-priority task waits. -/
theorem dispatch_ignores_priority_cex :
    (process_step [c2_low, c2_high] 10).1 = some c2_low ∧
    c2_low.priority < c2_high.priority ∧
    c2_low.scheduled_for ≤ 10 ∧ c2_high.scheduled_for ≤ 10 := by
  refine ⟨?_, by norm_num [c2_low, c2_high], by norm_num [c2_low],
    by norm_num [c2_high]⟩
  norm_num [process_step, c2_low]

/-- Claim C2 amended: dispatch order is the FIFO order of the
`asyncio.Queue`, ignoring `priority` and `created_at` — whenever the
queue head is due it is the task dispatched, whatever tasks (of any
priority) stand behind it. -/
theorem fifo_head_dispatch (u : Task) (rest : List Task) (now : ℚ)
    (h : u.scheduled_for ≤ now) :
    (process_step (u :: rest) now).1 = some u ∧
    (process_step (u :: rest) now).2 = rest := by
  simp only [process_step]
  rw [if_neg (not_lt.mpr h)]
  exact ⟨rfl, rfl⟩

/-- Witness for the amended claim C2: the due low-priority head of
`[c2_low, c2_high]` is dispatched at time 10. -/
theorem fifo_head_dispatch_witness :
    (process_step (c2_low :: [c2_high]) 10).1 = some c2_low ∧
    (process_step (c2_low :: [c2_high]) 10).2 = [c2_high] :=
  fifo_head_dispatch c2_low [c2_high] 10 (by norm_num [c2_low])

/-- Three like tasks for exercising queue admission. -/
def c3_a : Task := { id := "like_20260101_000000_3001", task_type := TaskType.like }

/-- Second C3 task. -/
def c3_b : Task := { id := "like_20260101_000000_3002", task_type := TaskType.like }

/-- Third C3 task. -/
def c3_c : Task := { id := "like_20260101_000000_3003", task_type := TaskType.like }

/-- Counterexample to claim C3: submitting to a queue already at capacity
(2 tasks, capacity 2) does not return any error value — the
`await task_queue.put(task)` suspends the caller, which is not a
synchronous `QueueFull` return. -/
theorem queue_full_blocks_cex :
    add_task_outcome 2 [c3_a, c3_b] c3_c = AddTaskOutcome.suspended := by
  simp [add_task_outcome]

/-- Claim C3 amended: submission at or beyond capacity never returns —
the bounded queue's `put` suspends the caller until a slot frees, so no
error is signalled, no task is enqueued, and the pending queue is
unchanged while the submitter waits. -/
theorem queue_full_suspends (cap : ℕ) (q : List Task) (t : Task)
    (h : cap ≤ q.length) :
    add_task_outcome cap q t = AddTaskOutcome.suspended := by
  unfold add_task_outcome
  rw [if_neg (not_lt.mpr h)]

/-- Witness for the amended claim C3: capacity 2, two queued tasks. -/
theorem queue_full_suspends_witness :
    add_task_outcome 2 [c3_a, c3_b] c3_c = AddTaskOutcome.suspended :=
  queue_full_suspends 2 [c3_a, c3_b] c3_c (by simp)

/-- The freshly constructed limiter (`RateLimiter.__init__`): every
timestamp `None`, default configuration. -/
def rl_init : RateLimiter := {}

/-- Counterexample to claim C4: recording a retweet at time 0 leaves the
like-side fields (`like_last_action`, `like_cycle_start`) — the only
state the Like/Retweet gate reads — untouched, and one minute later
(well inside the 2-minute `like_interval`) both a like and a retweet
are still permitted. -/
theorem retweet_not_counted_cex :
    (record_retweet_action rl_init 0).like_last_action = none ∧
    (record_retweet_action rl_init 0).like_cycle_start = none ∧
    (can_perform_like (record_retweet_action rl_init 0) 1).1 = true ∧
    (can_perform_retweet (record_retweet_action rl_init 0) 1).1 = true ∧
    (1 : ℚ) - 0 < (record_retweet_action rl_init 0).rate_limits.like_interval := by
  norm_num [record_retweet_action, can_perform_retweet, can_perform_like,
    like_gate_min, rl_init, default_rate_limits]

/-- Claim C4 amended: `record_retweet_action` writes only the retweet-side
fields, which no `can_perform_*` check reads; the shared Like/Retweet
gate reads only the like-side state, so recording a retweet changes
neither the gate's state nor its verdict at any later time. -/
theorem record_retweet_leaves_like_gate (rl : RateLimiter) (s now : ℚ) :
    (record_retweet_action rl s).like_last_action = rl.like_last_action ∧
    (record_retweet_action rl s).like_cycle_start = rl.like_cycle_start ∧
    (record_retweet_action rl s).rate_limits = rl.rate_limits ∧
    (can_perform_retweet (record_retweet_action rl s) now).1
      = (can_perform_retweet rl now).1 := by
  refine ⟨rfl, rfl, rfl, ?_⟩
  unfold can_perform_retweet can_perform_like like_gate_min
  cases hcyc : rl.like_cycle_start <;>
    cases hlast : rl.like_last_action <;>
      simp [record_retweet_action, hcyc, hlast]
  all_goals (split_ifs <;> rfl)

/-- Counterexample to claim C5 for the Retweet kind: two retweet
dispatches at times 0 and 1 are both approved although their gap of
one minute is below `like_interval = 2`, the minimum the claim assigns
to Retweet — `can_perform_retweet` consults the like-side state while
`record_retweet_action` updates only the retweet-side state. -/
theorem retweet_spacing_cex :
    (can_perform_retweet rl_init 0).1 = true ∧
    (can_perform_retweet
        (record_retweet_action (can_perform_retweet rl_init 0).2 0) 1).1
      = true ∧
    (1 : ℚ) - 0 < rl_init.rate_limits.like_interval := by
  norm_num [can_perform_retweet, can_perform_like, like_gate_min,
    record_retweet_action, rl_init, default_rate_limits]

/-- Claim C5 amended: the spacing invariant holds for the kinds whose gate
reads the state their record call writes — after `record` at `t1`, an
approval at `t2` forces `t2 - t1` to reach the kind's minimum interval
for Like (`like_interval`), Comment (`comment_min`) and Quote
(`quote_min`); it fails for Retweet (see the counterexample). -/
theorem min_interval_spacing (rl : RateLimiter) (t1 t2 : ℚ) :
    ((can_perform_like (record_like_action rl t1) t2).1 = true →
      rl.rate_limits.like_interval ≤ t2 - t1) ∧
    (can_perform_comment (record_comment_action rl t1) t2 = true →
      rl.rate_limits.comment_min ≤ t2 - t1) ∧
    ((can_perform_quote (record_quote_action rl t1) t2).1 = true →
      rl.rate_limits.quote_min ≤ t2 - t1) := by
  refine ⟨?_, ?_, ?_⟩
  · unfold can_perform_like like_gate_min record_like_action
    cases hcyc : rl.like_cycle_start <;>
      simp [hcyc] <;> split_ifs <;> simp_all [not_lt]
  · unfold can_perform_comment record_comment_action
    simp [not_lt]
  · unfold can_perform_quote quote_gate_min record_quote_action
    cases hcyc : rl.quote_cycle_start <;>
      simp [hcyc] <;> split_ifs <;> simp_all [not_lt]

/-- Witness for the amended claim C5: from a cold limiter, record each of
like/comment/quote at time 0; approval at time 100 indeed implies the
configured minimums (2, 10, 10) are within the elapsed 100 minutes. -/
theorem min_interval_spacing_witness :
    rl_init.rate_limits.like_interval ≤ (100 : ℚ) - 0 ∧
    rl_init.rate_limits.comment_min ≤ (100 : ℚ) - 0 ∧
    rl_init.rate_limits.quote_min ≤ (100 : ℚ) - 0 :=
  ⟨(min_interval_spacing rl_init 0 100).1
      (by norm_num [can_perform_like, like_gate_min, record_like_action,
        rl_init, default_rate_limits]),
    (min_interval_spacing rl_init 0 100).2.1
      (by norm_num [can_perform_comment, record_comment_action,
        rl_init, default_rate_limits]),
    (min_interval_spacing rl_init 0 100).2.2
      (by norm_num [can_perform_quote, quote_gate_min, record_quote_action,
        rl_init, default_rate_limits])⟩

/-- A fresh like task with `retry_count = 0` and the default
`max_retries = 3`, for the retry-exhaustion scenario. -/
def c6_task : Task :=
  { id := "like_20260101_000000_6000", task_type := TaskType.like,
    payload := { tweet_url := some "https://x.com/a/status/6" } }

/-- Counterexample to claim C6: with `max_retries = 3`, already the *third*
zero-success failure (not the fourth) leaves the task Failed with
`retry_count = 3` and no re-queue — the code re-queues only while
`retry_count < max_retries` holds *after* the increment, so just the
first two failures re-queue. -/
theorem third_failure_terminal_cex :
    (execute_result (execute_result (execute_result c6_task false 10) false 20)
        false 30).status = TaskStatus.failed ∧
    (execute_result (execute_result (execute_result c6_task false 10) false 20)
        false 30).retry_count = 3 ∧
    execute_requeues (execute_result (execute_result c6_task false 10) false 20)
        false = false := by
  norm_num [execute_result, execute_requeues, c6_task]

/-- Claim C6 amended: for a task with `maxRetries = 3` failing with a
zero-success fan-out on every attempt, the first two failures re-queue
it as Pending with `retryCount` incremented (to 1, then 2) and
`scheduledFor` pushed to `now + 5`; the third failure raises
`retryCount` to 3 = `maxRetries` and leaves the task Failed with no
further re-queue. -/
theorem retries_then_failed (t : Task) (n1 n2 n3 : ℚ)
    (h0 : t.retry_count = 0) (h3 : t.max_retries = 3) :
    execute_requeues t false = true ∧
    (execute_result t false n1).status = TaskStatus.pending ∧
    (execute_result t false n1).retry_count = 1 ∧
    (execute_result t false n1).scheduled_for = n1 + 5 ∧
    execute_requeues (execute_result t false n1) false = true ∧
    (execute_result (execute_result t false n1) false n2).status
      = TaskStatus.pending ∧
    (execute_result (execute_result t false n1) false n2).retry_count = 2 ∧
    (execute_result (execute_result t false n1) false n2).scheduled_for
      = n2 + 5 ∧
    execute_requeues (execute_result (execute_result t false n1) false n2)
        false = false ∧
    (execute_result (execute_result (execute_result t false n1) false n2)
        false n3).status = TaskStatus.failed ∧
    (execute_result (execute_result (execute_result t false n1) false n2)
        false n3).retry_count = 3 := by
  simp [execute_result, execute_requeues, h0, h3]

/-- Witness for the amended claim C6: `c6_task` failing at times 10, 20
and 30. -/
theorem retries_then_failed_witness :
    execute_requeues c6_task false = true ∧
    (execute_result c6_task false 10).status = TaskStatus.pending ∧
    (execute_result c6_task false 10).retry_count = 1 ∧
    (execute_result c6_task false 10).scheduled_for = 10 + 5 ∧
    execute_requeues (execute_result c6_task false 10) false = true ∧
    (execute_result (execute_result c6_task false 10) false 20).status
      = TaskStatus.pending ∧
    (execute_result (execute_result c6_task false 10) false 20).retry_count
      = 2 ∧
    (execute_result (execute_result c6_task false 10) false 20).scheduled_for
      = 20 + 5 ∧
    execute_requeues (execute_result (execute_result c6_task false 10) false 20)
        false = false ∧
    (execute_result (execute_result (execute_result c6_task false 10) false 20)
        false 30).status = TaskStatus.failed ∧
    (execute_result (execute_result (execute_result c6_task false 10) false 20)
        false 30).retry_count = 3 :=
  retries_then_failed c6_task 10 20 30 rfl rfl

/-- A limiter state the like gate refuses at time 1: the last like was at
time 0, within the 2-minute `like_interval`. -/
def rl_denied : RateLimiter := { like_last_action := some 0 }

/-- Scheduler state carrying `rl_denied` and an empty pool. -/
def s_denied : SchedulerState := { rate_limiter := rl_denied, pool := { bots := [] } }

/-- A first-attempt like task used for the denied-gate dispatch. -/
def c1_task : Task :=
  { id := "like_20260101_000000_1111", task_type := TaskType.like,
    payload := { tweet_url := some "https://x.com/a/status/2" } }

/-- Counterexample to claim C1: at time 1 the like gate refuses
(`1 - 0 < like_interval = 2`), yet the dispatch of `c1_task` does NOT
leave `retry_count` unchanged — the handler's `False` is fed into the
ordinary failure path, so the retry counter is consumed (0 becomes 1)
and the re-queued task is deferred by the 5-minute retry delay. -/
theorem gate_denial_consumes_retry_cex :
    (can_perform_like rl_denied 1).1 = false ∧
    (dispatch_like s_denied c1_task 1 []).1.retry_count = 1 ∧
    ¬ (dispatch_like s_denied c1_task 1 []).1.retry_count
        = c1_task.retry_count ∧
    (dispatch_like s_denied c1_task 1 []).1.scheduled_for = 1 + 5 ∧
    (dispatch_like s_denied c1_task 1 []).2.1 = true := by
  norm_num [dispatch_like, handle_like_task, can_perform_like, like_gate_min,
    execute_result, execute_requeues, s_denied, rl_denied, c1_task,
    default_rate_limits]

/-- Claim C1 amended: a like dispatch whose gate check fails is treated
exactly as a handler failure: no action is recorded
(`like_last_action` is unchanged by the check), `retry_count` is
incremented, the task is re-queued as Pending with
`scheduled_for = now + 5` while the incremented count is below
`max_retries` and otherwise left Failed. -/
theorem gate_denied_like_is_failure (s : SchedulerState) (t : Task) (now : ℚ)
    (results : List Bool)
    (h : (can_perform_like s.rate_limiter now).1 = false) :
    dispatch_like s t now results
      = (execute_result t false now, execute_requeues t false,
          { s with rate_limiter := (can_perform_like s.rate_limiter now).2 }) ∧
    (can_perform_like s.rate_limiter now).2.like_last_action
      = s.rate_limiter.like_last_action ∧
    (execute_result t false now).retry_count = t.retry_count + 1 ∧
    (execute_result t false now).status
      = (if t.retry_count + 1 < t.max_retries then TaskStatus.pending
         else TaskStatus.failed) ∧
    (execute_result t false now).scheduled_for
      = (if t.retry_count + 1 < t.max_retries then now + 5
         else t.scheduled_for) ∧
    execute_requeues t false = decide (t.retry_count + 1 < t.max_retries) := by
  refine ⟨?_, ?_, ?_, ?_, ?_, ?_⟩
  · unfold dispatch_like handle_like_task
    simp [h]
  · unfold can_perform_like
    cases hcyc : s.rate_limiter.like_cycle_start <;>
      cases hlast : s.rate_limiter.like_last_action <;>
        simp [hcyc, hlast, like_gate_min]
    all_goals (split_ifs <;> simp [hlast])
  · simp only [execute_result]
    simp only [Bool.false_eq_true, if_false]
    split_ifs <;> rfl
  · simp only [execute_result]
    simp only [Bool.false_eq_true, if_false]
    split_ifs <;> rfl
  · simp only [execute_result]
    simp only [Bool.false_eq_true, if_false]
    split_ifs <;> rfl
  · simp [execute_requeues]

/-- Witness for the amended claim C1: the denied dispatch of `c1_task` at
time 1 from `s_denied`. -/
theorem gate_denied_like_is_failure_witness :
    dispatch_like s_denied c1_task 1 []
      = (execute_result c1_task false 1, execute_requeues c1_task false,
          { s_denied with
            rate_limiter := (can_perform_like s_denied.rate_limiter 1).2 }) ∧
    (can_perform_like s_denied.rate_limiter 1).2.like_last_action
      = s_denied.rate_limiter.like_last_action ∧
    (execute_result c1_task false 1).retry_count = c1_task.retry_count + 1 ∧
    (execute_result c1_task false 1).status
      = (if c1_task.retry_count + 1 < c1_task.max_retries then
          TaskStatus.pending else TaskStatus.failed) ∧
    (execute_result c1_task false 1).scheduled_for
      = (if c1_task.retry_count + 1 < c1_task.max_retries then (1 : ℚ) + 5
         else c1_task.scheduled_for) ∧
    execute_requeues c1_task false
      = decide (c1_task.retry_count + 1 < c1_task.max_retries) :=
  gate_denied_like_is_failure s_denied c1_task 1 []
    (by norm_num [can_perform_like, like_gate_min, s_denied, rl_denied,
      default_rate_limits])

end TwitterBot
